import Mathlib

/-!
Shallow embedding of the SuiteSparse:GraphBLAS runtime substrate: the
size-checked, fault-injectable allocator wrapper `GB_malloc_memory`
(src/unnamed/part_000) and the execution-context initializer `GrB_init`
(src/GraphBLAS/Source/GrB_init.c), together with theorems settling the
specification claims about them.

Pointers are modelled as `Option Nat` (`none` is the C null pointer), the
underlying system allocator `MALLOC` as an oracle `Nat → Option Nat` from a
requested size to a (possibly null) address, and the thread-local context
`GB_thread_local` as an explicit record threaded through each operation.
-/

namespace SuiteSparse

/-- Return codes of the GraphBLAS API used by the embedded fragment. -/
inductive GrB_Info where
  | GrB_SUCCESS
  | GrB_INVALID_VALUE
  | GrB_OUT_OF_MEMORY
  deriving DecidableEq, Repr

open GrB_Info

/-- C enum value of the non-blocking mode (`GrB_NONBLOCKING`).  The mode
argument of `GrB_init` is modelled as a plain machine integer so that
invalid enum values can be passed, as in C. -/
def GrB_NONBLOCKING : Nat := 0

/-- C enum value of the blocking mode (`GrB_BLOCKING`). -/
def GrB_BLOCKING : Nat := 1

/-- Modelled from the spec: `GB_INDEX_MAX`, declared in GB.h which is not
among the source files, is the "platform-defined maximum index value"
(2^60 on a 64-bit platform). -/
def GB_INDEX_MAX : Nat := 2 ^ 60

/-- Number of values of the C type `size_t` on the 64-bit platform. -/
def sizeTBound : Nat := 2 ^ 64

/-- Modelled from the spec: `GB_size_t_multiply`, declared in GB.h which is
not among the source files, is the "overflow-checked multiplication" of
the spec: it reports `true` together with the product when `a * b` fits in
`size_t`, and `false` otherwise. -/
def GB_size_t_multiply (a b : Nat) : Bool × Nat :=
  if a * b < sizeTBound then (true, a * b) else (false, 0)

/-- The thread-local execution context `GB_thread_local` with the fields the
two source files read or write: diagnostics (error status and source
breadcrumbs), the pending-matrix queue head, the evaluation mode, the
malloc tracking counters, and the workspace buffers. -/
structure GB_Global where
  /-- last error status (`GB_thread_local.info`) -/
  info : GrB_Info
  /-- diagnostic breadcrumb (`GB_thread_local.row`) -/
  row : Nat
  /-- diagnostic breadcrumb (`GB_thread_local.col`) -/
  col : Nat
  /-- diagnostic breadcrumb (`GB_thread_local.is_matrix`) -/
  is_matrix : Nat
  /-- diagnostic breadcrumb (`GB_thread_local.file`) -/
  file : String
  /-- diagnostic breadcrumb (`GB_thread_local.line`) -/
  line : Nat
  /-- diagnostic detail text (`GB_thread_local.details`) -/
  details : String
  /-- diagnostic report text (`GB_thread_local.report`) -/
  report : String
  /-- breadcrumb set by the `WHERE` macro naming the current API call -/
  where_str : String
  /-- head of the queue of matrices with pending operations -/
  queue_head : Option Nat
  /-- blocking or non-blocking mode -/
  mode : Nat
  /-- number of allocations recorded by the allocator (`nmalloc`) -/
  nmalloc : Int
  /-- fault-injection flag (`malloc_debug`) -/
  malloc_debug : Bool
  /-- fault-injection success budget (`malloc_debug_count`) -/
  malloc_debug_count : Int
  /-- workspace buffer `Mark` -/
  Mark : Option Nat
  /-- watermark of the `Mark` workspace -/
  Mark_flag : Nat
  /-- size of the `Mark` workspace -/
  Mark_size : Nat
  /-- workspace buffer `Work` -/
  Work : Option Nat
  /-- size of the `Work` workspace -/
  Work_size : Nat
  /-- workspace buffer `Flag` -/
  Flag : Option Nat
  /-- size of the `Flag` workspace -/
  Flag_size : Nat
  deriving DecidableEq, Repr

/-- Result of one `GB_malloc_memory` call: the returned pointer, the updated
thread-local context, and whether the underlying system allocator was
invoked. -/
structure MallocResult where
  p : Option Nat
  st : GB_Global
  sysCalled : Bool
  deriving DecidableEq, Repr

/-- Embedding of `GB_malloc_memory` (src/unnamed/part_000, lines 23-81).
`sys` is the underlying system allocator `MALLOC`.  The argument clamping
(`IMAX (1, ...)`), the overflow and index-limit check, the fault-injection
("brutal malloc debug") early failure, the `nmalloc` increment on success
and the budget decrement are translated line by line from the source. -/
def GB_malloc_memory (sys : Nat → Option Nat) (st : GB_Global)
    (nitems0 size_of_item0 : Nat) : MallocResult :=
  -- make sure at least one item and one byte are allocated
  let nitems := max 1 nitems0
  let size_of_item := max 1 size_of_item0
  let mul := GB_size_t_multiply nitems size_of_item
  let ok := mul.1
  let size := mul.2
  if ok = false ∨ GB_INDEX_MAX < nitems ∨ GB_INDEX_MAX < size_of_item then
    -- overflow: p = NULL, system allocator never invoked
    ⟨none, st, false⟩
  else if st.malloc_debug = true ∧ st.malloc_debug_count ≤ 0 then
    -- brutal malloc debug; pretend to fail if the count <= 0
    ⟨none, st, false⟩
  else
    match sys size with
    | none => ⟨none, st, true⟩
    | some a =>
      let st1 := { st with nmalloc := st.nmalloc + 1 }
      let st2 :=
        if st1.malloc_debug = true then
          { st1 with malloc_debug_count := st1.malloc_debug_count - 1 }
        else st1
      ⟨some a, st2, true⟩

/-- Line number of the `GB_thread_local.line = __LINE__` statement in
GrB_init.c; the concrete value is only needed to make `GrB_init` a total
function on records. -/
def GrB_init_LINE : Nat := 71

/-- Modelled from the spec: the `ERROR`/`LOG` reporting macro of GB.h (not
among the source files) records the most recent failure's diagnostics in
the context — "last error kind, human-readable detail text" — before the
failing call returns (spec sections 3 and 7). -/
def GB_error (st : GB_Global) (i : GrB_Info) (msg : String) : GB_Global :=
  { st with info := i, report := msg }

/-- Modelled from the spec: the `WHERE` macro of GB.h (not among the source
files) records the source-location breadcrumb naming the current API
call. -/
def GB_where (st : GB_Global) (w : String) : GB_Global :=
  { st with where_str := w }

/-- The context state produced by a successful `GrB_init` call: every field
as assigned in GrB_init.c, lines 66-93. -/
def GB_init_state (mode : Nat) : GB_Global :=
  { info := GrB_SUCCESS
    row := 0
    col := 0
    is_matrix := 0
    file := "GrB_init.c"
    line := GrB_init_LINE
    details := ""
    report := ""
    where_str := "GrB_init (mode)"
    queue_head := none
    mode := mode
    nmalloc := 0
    malloc_debug := false
    malloc_debug_count := 0
    Mark := none
    Mark_flag := 1
    Mark_size := 0
    Work := none
    Work_size := 0
    Flag := none
    Flag_size := 0 }

/-- Embedding of `GrB_init` (src/GraphBLAS/Source/GrB_init.c, lines 43-96):
record the `WHERE` breadcrumb, reject a mode that is neither blocking nor
non-blocking with `GrB_INVALID_VALUE`, and otherwise reset every field of
the thread-local context. -/
def GrB_init (st : GB_Global) (mode : Nat) : GrB_Info × GB_Global :=
  let st := GB_where st "GrB_init (mode)"
  if ¬ (mode = GrB_BLOCKING ∨ mode = GrB_NONBLOCKING) then
    (GrB_INVALID_VALUE, GB_error st GrB_INVALID_VALUE "Unknown mode")
  else
    (GrB_SUCCESS, GB_init_state mode)

/-- A context together with the multiset of live heap blocks obtained from
the allocator and not yet released: the addresses returned by successful
`GB_malloc_memory` calls.  This is the "currently outstanding allocations"
notion of the spec's `allocationCount` invariant. -/
structure AllocState where
  gs : GB_Global
  live : List Nat
  deriving DecidableEq, Repr

/-- `GB_malloc_memory` acting on a context with its live-block list: a
successful allocation adds the returned address to the live blocks, any
failure leaves them unchanged. -/
def GB_malloc_full (sys : Nat → Option Nat) (s : AllocState)
    (nitems0 size_of_item0 : Nat) : Option Nat × AllocState :=
  let r := GB_malloc_memory sys s.gs nitems0 size_of_item0
  match r.p with
  | some a => (some a, ⟨r.st, a :: s.live⟩)
  | none => (none, ⟨r.st, s.live⟩)

/-- `GrB_init` acting on a context with its live-block list.  The source of
`GrB_init` contains no call that releases memory, so the live blocks are
unchanged: the workspace pointers are reset without freeing the blocks
they pointed to. -/
def GrB_init_full (s : AllocState) (mode : Nat) : GrB_Info × AllocState :=
  let r := GrB_init s.gs mode
  (r.1, ⟨r.2, s.live⟩)

/-- The spec's `allocationCount` invariant: the context's allocation counter
equals the number of currently outstanding allocations. -/
def countInvariant (s : AllocState) : Prop :=
  s.gs.nmalloc = (s.live.length : Int)

instance (s : AllocState) : Decidable (countInvariant s) := by
  unfold countInvariant; infer_instance

/-- A fresh context as produced by `GrB_init` in non-blocking mode, used as
a concrete base state. -/
def freshState : AllocState := ⟨GB_init_state GrB_NONBLOCKING, []⟩

/-- A system allocator that always succeeds, handing out address 1. -/
def sysOk : Nat → Option Nat := fun _ => some 1

/-! ## Branch characterizations of `GB_malloc_memory` -/

/-- When the clamped product overflows `size_t` or either clamped argument
exceeds `GB_INDEX_MAX`, the allocator returns null, does not call the
system allocator, and leaves the context untouched. -/
theorem GB_malloc_memory_overflow (sys : Nat → Option Nat) (st : GB_Global)
    (nitems0 size_of_item0 : Nat)
    (h : sizeTBound ≤ max 1 nitems0 * max 1 size_of_item0 ∨
         GB_INDEX_MAX < max 1 nitems0 ∨ GB_INDEX_MAX < max 1 size_of_item0) :
    GB_malloc_memory sys st nitems0 size_of_item0 = ⟨none, st, false⟩ := by
  simp only [GB_malloc_memory, GB_size_t_multiply]
  by_cases hm : max 1 nitems0 * max 1 size_of_item0 < sizeTBound
  · rw [if_pos hm]
    simp only []
    rw [if_pos]
    rcases h with h | h | h
    · omega
    · exact Or.inr (Or.inl h)
    · exact Or.inr (Or.inr h)
  · rw [if_neg hm]
    simp

/-- When fault injection is armed (`malloc_debug` set and an exhausted
budget), the allocator fails before touching the system allocator and
leaves the context untouched. -/
theorem GB_malloc_memory_debug_fail (sys : Nat → Option Nat) (st : GB_Global)
    (nitems0 size_of_item0 : Nat)
    (h1 : max 1 nitems0 * max 1 size_of_item0 < sizeTBound)
    (h2 : max 1 nitems0 ≤ GB_INDEX_MAX) (h3 : max 1 size_of_item0 ≤ GB_INDEX_MAX)
    (hd : st.malloc_debug = true) (hc : st.malloc_debug_count ≤ 0) :
    GB_malloc_memory sys st nitems0 size_of_item0 = ⟨none, st, false⟩ := by
  simp only [GB_malloc_memory, GB_size_t_multiply]
  rw [if_pos h1]
  simp only []
  rw [if_neg (by simp; omega), if_pos ⟨hd, hc⟩]

/-- When the size checks pass, fault injection is not forcing a failure, and
the system allocator yields address `a`, the allocator returns `a`,
increments `nmalloc`, and decrements the budget exactly when
`malloc_debug` is set. -/
theorem GB_malloc_memory_success (sys : Nat → Option Nat) (st : GB_Global)
    (nitems0 size_of_item0 a : Nat)
    (h1 : max 1 nitems0 * max 1 size_of_item0 < sizeTBound)
    (h2 : max 1 nitems0 ≤ GB_INDEX_MAX) (h3 : max 1 size_of_item0 ≤ GB_INDEX_MAX)
    (hd : st.malloc_debug = false ∨ 0 < st.malloc_debug_count)
    (hs : sys (max 1 nitems0 * max 1 size_of_item0) = some a) :
    GB_malloc_memory sys st nitems0 size_of_item0 =
      ⟨some a,
       if st.malloc_debug = true then
         { st with nmalloc := st.nmalloc + 1,
                   malloc_debug_count := st.malloc_debug_count - 1 }
       else { st with nmalloc := st.nmalloc + 1 },
       true⟩ := by
  simp only [GB_malloc_memory, GB_size_t_multiply]
  rw [if_pos h1]
  simp only []
  rw [if_neg (by simp; omega)]
  rw [if_neg (by
    intro hcon
    rcases hd with hd | hd
    · rw [hd] at hcon; exact absurd hcon.1 (by simp)
    · exact absurd hcon.2 (by omega))]
  rw [hs]

/-- The allocator only reads its arguments through the clamp to 1, so a call
equals the call on the clamped arguments. -/
theorem GB_malloc_memory_clamp (sys : Nat → Option Nat) (st : GB_Global)
    (nitems0 size_of_item0 : Nat) :
    GB_malloc_memory sys st nitems0 size_of_item0 =
      GB_malloc_memory sys st (max 1 nitems0) (max 1 size_of_item0) := by
  simp only [GB_malloc_memory]
  have hn : max 1 (max 1 nitems0) = max 1 nitems0 := by omega
  have hsz : max 1 (max 1 size_of_item0) = max 1 size_of_item0 := by omega
  rw [hn, hsz]

/-! ## Claims about the allocator -/

/-- C1: for every `itemCount` and `itemSize` (each clamped to at least 1)
whose product overflows `size_t`, or which exceed the platform maximum
index value `GB_INDEX_MAX`, `GB_malloc_memory` fails (returns the null
pointer) without invoking the underlying system allocator, and the
context — in particular the allocation counter `nmalloc` — is unchanged. -/
theorem allocate_overflow_fails (sys : Nat → Option Nat) (st : GB_Global)
    (nitems0 size_of_item0 : Nat)
    (h : sizeTBound ≤ max 1 nitems0 * max 1 size_of_item0 ∨
         GB_INDEX_MAX < max 1 nitems0 ∨ GB_INDEX_MAX < max 1 size_of_item0) :
    (GB_malloc_memory sys st nitems0 size_of_item0).p = none ∧
    (GB_malloc_memory sys st nitems0 size_of_item0).sysCalled = false ∧
    (GB_malloc_memory sys st nitems0 size_of_item0).st = st ∧
    (GB_malloc_memory sys st nitems0 size_of_item0).st.nmalloc = st.nmalloc := by
  rw [GB_malloc_memory_overflow sys st nitems0 size_of_item0 h]
  exact ⟨rfl, rfl, rfl, rfl⟩

/-- Witness for C1: `2^40 * 2^40` items of one byte overflow `size_t`. -/
theorem allocate_overflow_fails_witness :
    (GB_malloc_memory sysOk (GB_init_state 0) (2 ^ 40) (2 ^ 40)).p = none ∧
    (GB_malloc_memory sysOk (GB_init_state 0) (2 ^ 40) (2 ^ 40)).sysCalled = false ∧
    (GB_malloc_memory sysOk (GB_init_state 0) (2 ^ 40) (2 ^ 40)).st = GB_init_state 0 ∧
    (GB_malloc_memory sysOk (GB_init_state 0) (2 ^ 40) (2 ^ 40)).st.nmalloc =
      (GB_init_state 0).nmalloc :=
  allocate_overflow_fails sysOk (GB_init_state 0) (2 ^ 40) (2 ^ 40) (by decide)

/-- C2: when the clamped product does not overflow, both clamped arguments
are within the index limit, fault injection is disabled or has a positive
remaining budget, and the underlying system allocator succeeds,
`GB_malloc_memory` returns a non-null pointer and `nmalloc` increases by
exactly 1. -/
theorem allocate_success_increments_count (sys : Nat → Option Nat)
    (st : GB_Global) (nitems0 size_of_item0 a : Nat)
    (h1 : max 1 nitems0 * max 1 size_of_item0 < sizeTBound)
    (h2 : max 1 nitems0 ≤ GB_INDEX_MAX) (h3 : max 1 size_of_item0 ≤ GB_INDEX_MAX)
    (hd : st.malloc_debug = false ∨ 0 < st.malloc_debug_count)
    (hs : sys (max 1 nitems0 * max 1 size_of_item0) = some a) :
    (GB_malloc_memory sys st nitems0 size_of_item0).p = some a ∧
    (GB_malloc_memory sys st nitems0 size_of_item0).p ≠ none ∧
    (GB_malloc_memory sys st nitems0 size_of_item0).st.nmalloc = st.nmalloc + 1 := by
  rw [GB_malloc_memory_success sys st nitems0 size_of_item0 a h1 h2 h3 hd hs]
  refine ⟨rfl, by simp, ?_⟩
  by_cases hmd : st.malloc_debug = true <;> simp [hmd]

/-- Witness for C2: allocating 2 items of 8 bytes from a fresh context. -/
theorem allocate_success_increments_count_witness :
    (GB_malloc_memory sysOk (GB_init_state 0) 2 8).p = some 1 ∧
    (GB_malloc_memory sysOk (GB_init_state 0) 2 8).p ≠ none ∧
    (GB_malloc_memory sysOk (GB_init_state 0) 2 8).st.nmalloc =
      (GB_init_state 0).nmalloc + 1 :=
  allocate_success_increments_count sysOk (GB_init_state 0) 2 8 1
    (by decide) (by decide) (by decide) (Or.inl rfl) rfl

/-- C3: a zero `itemCount` or `itemSize` is treated as 1 — any call equals
the call on the clamped arguments, and in particular `allocate (0, 0)`
behaves as `allocate (1, 1)` — and, with fault injection not forcing a
failure and the system allocator succeeding, `allocate (0, 0)` returns a
non-null result distinguishable from the failure result. -/
theorem allocate_zero_size_clamped (sys : Nat → Option Nat) (st : GB_Global)
    (a : Nat)
    (hd : st.malloc_debug = false ∨ 0 < st.malloc_debug_count)
    (hs : sys 1 = some a) :
    (∀ nitems0 size_of_item0 : Nat,
      GB_malloc_memory sys st nitems0 size_of_item0 =
        GB_malloc_memory sys st (max 1 nitems0) (max 1 size_of_item0)) ∧
    GB_malloc_memory sys st 0 0 = GB_malloc_memory sys st 1 1 ∧
    (GB_malloc_memory sys st 0 0).p = some a ∧
    (GB_malloc_memory sys st 0 0).p ≠ none := by
  have hcl := GB_malloc_memory_clamp sys st 0 0
  have hsucc := GB_malloc_memory_success sys st 0 0 a
    (by decide) (by decide) (by decide) hd (by simpa using hs)
  refine ⟨fun n s => GB_malloc_memory_clamp sys st n s, ?_, ?_, ?_⟩
  · simpa using hcl
  · rw [hsucc]
  · rw [hsucc]; simp

/-- Witness for C3: `allocate (0, 0)` on a fresh context with an
always-succeeding system allocator. -/
theorem allocate_zero_size_clamped_witness :
    (∀ nitems0 size_of_item0 : Nat,
      GB_malloc_memory sysOk (GB_init_state 0) nitems0 size_of_item0 =
        GB_malloc_memory sysOk (GB_init_state 0) (max 1 nitems0) (max 1 size_of_item0)) ∧
    GB_malloc_memory sysOk (GB_init_state 0) 0 0 =
      GB_malloc_memory sysOk (GB_init_state 0) 1 1 ∧
    (GB_malloc_memory sysOk (GB_init_state 0) 0 0).p = some 1 ∧
    (GB_malloc_memory sysOk (GB_init_state 0) 0 0).p ≠ none :=
  allocate_zero_size_clamped sysOk (GB_init_state 0) 1 (Or.inl rfl) rfl

/-- C4: with fault injection enabled and a non-positive remaining budget,
and sizes passing the overflow and limit checks, `GB_malloc_memory` fails
immediately: null result, the system allocator is not invoked, and the
context (hence `nmalloc`) is unchanged. -/
theorem allocate_simulated_fault_fails (sys : Nat → Option Nat)
    (st : GB_Global) (nitems0 size_of_item0 : Nat)
    (h1 : max 1 nitems0 * max 1 size_of_item0 < sizeTBound)
    (h2 : max 1 nitems0 ≤ GB_INDEX_MAX) (h3 : max 1 size_of_item0 ≤ GB_INDEX_MAX)
    (hd : st.malloc_debug = true) (hc : st.malloc_debug_count ≤ 0) :
    (GB_malloc_memory sys st nitems0 size_of_item0).p = none ∧
    (GB_malloc_memory sys st nitems0 size_of_item0).sysCalled = false ∧
    (GB_malloc_memory sys st nitems0 size_of_item0).st = st := by
  rw [GB_malloc_memory_debug_fail sys st nitems0 size_of_item0 h1 h2 h3 hd hc]
  exact ⟨rfl, rfl, rfl⟩

/-- A context with fault injection armed and an exhausted budget. -/
def exhaustedDebugState : GB_Global :=
  { GB_init_state 0 with malloc_debug := true, malloc_debug_count := 0 }

/-- Witness for C4: an exhausted fault-injection budget makes a 2-by-8
allocation fail without touching the system allocator. -/
theorem allocate_simulated_fault_fails_witness :
    (GB_malloc_memory sysOk exhaustedDebugState 2 8).p = none ∧
    (GB_malloc_memory sysOk exhaustedDebugState 2 8).sysCalled = false ∧
    (GB_malloc_memory sysOk exhaustedDebugState 2 8).st = exhaustedDebugState :=
  allocate_simulated_fault_fails sysOk exhaustedDebugState 2 8
    (by decide) (by decide) (by decide) rfl (by decide)

/-! ## Repeated allocation and the fault-injection budget -/

/-- Context after `k` consecutive `GB_malloc_memory` calls with the given
arguments. -/
def allocIter (sys : Nat → Option Nat) (nitems0 size_of_item0 : Nat) :
    Nat → GB_Global → GB_Global
  | 0, st => st
  | k + 1, st =>
    allocIter sys nitems0 size_of_item0 k
      (GB_malloc_memory sys st nitems0 size_of_item0).st

/-- Modelled from the spec: the debug/test-only surface that disables fault
injection (spec section 6); only the `malloc_debug` flag is cleared. -/
def disableFaultInjection (st : GB_Global) : GB_Global :=
  { st with malloc_debug := false }

/-- Running `k ≤ N` allocations under fault injection with budget `N` from a
state keeps the flag set, leaves the budget at `N - k`, and adds `k` to
`nmalloc`. -/
theorem allocIter_debug_invariant (sys : Nat → Option Nat)
    (nitems0 size_of_item0 : Nat)
    (h1 : max 1 nitems0 * max 1 size_of_item0 < sizeTBound)
    (h2 : max 1 nitems0 ≤ GB_INDEX_MAX) (h3 : max 1 size_of_item0 ≤ GB_INDEX_MAX)
    (hsys : ∀ m, (sys m).isSome) :
    ∀ (k N : Nat) (st : GB_Global), st.malloc_debug = true →
      st.malloc_debug_count = (N : Int) → k ≤ N →
      (allocIter sys nitems0 size_of_item0 k st).malloc_debug = true ∧
      (allocIter sys nitems0 size_of_item0 k st).malloc_debug_count = (N : Int) - k ∧
      (allocIter sys nitems0 size_of_item0 k st).nmalloc = st.nmalloc + k := by
  intro k
  induction k with
  | zero => intro N st hd hcnt _; simp [allocIter, hd, hcnt]
  | succ k ih =>
    intro N st hd hcnt hk
    obtain ⟨a, ha⟩ := Option.isSome_iff_exists.mp
      (hsys (max 1 nitems0 * max 1 size_of_item0))
    have hstep := GB_malloc_memory_success sys st nitems0 size_of_item0 a
      h1 h2 h3 (Or.inr (by
        rw [hcnt]
        exact_mod_cast Nat.lt_of_lt_of_le (Nat.succ_pos k) hk)) ha
    have hred : allocIter sys nitems0 size_of_item0 (k + 1) st =
        allocIter sys nitems0 size_of_item0 k
          (GB_malloc_memory sys st nitems0 size_of_item0).st := rfl
    rw [hred, hstep, hd]
    rw [if_pos rfl]
    have := ih (N - 1)
      { st with nmalloc := st.nmalloc + 1, malloc_debug := true,
                malloc_debug_count := st.malloc_debug_count - 1 }
      rfl
      (by
        show st.malloc_debug_count - 1 = ((N - 1 : Nat) : Int)
        rw [hcnt]; omega)
      (by omega)
    refine ⟨this.1, ?_, ?_⟩
    · rw [this.2.1]; omega
    · rw [this.2.2]
      show st.nmalloc + 1 + (k : Int) = st.nmalloc + ((k + 1 : Nat) : Int)
      omega

/-- C5: with fault injection enabled and budget `N > 0`, given valid sizes
and an always-succeeding system allocator, each of the first `N` calls to
`GB_malloc_memory` succeeds and decrements the budget by 1 alongside the
`nmalloc` increment, the `(N+1)`-th call fails, and disabling fault
injection immediately restores success. -/
theorem allocate_fault_budget_behaviour (sys : Nat → Option Nat)
    (st : GB_Global) (nitems0 size_of_item0 N : Nat)
    (h1 : max 1 nitems0 * max 1 size_of_item0 < sizeTBound)
    (h2 : max 1 nitems0 ≤ GB_INDEX_MAX) (h3 : max 1 size_of_item0 ≤ GB_INDEX_MAX)
    (hsys : ∀ m, (sys m).isSome)
    (hd : st.malloc_debug = true) (hcnt : st.malloc_debug_count = (N : Int))
    (_hN : 0 < N) :
    (∀ k, k < N →
      (GB_malloc_memory sys (allocIter sys nitems0 size_of_item0 k st)
        nitems0 size_of_item0).p ≠ none) ∧
    (∀ k, k ≤ N →
      (allocIter sys nitems0 size_of_item0 k st).malloc_debug_count =
        (N : Int) - k ∧
      (allocIter sys nitems0 size_of_item0 k st).nmalloc = st.nmalloc + k) ∧
    (GB_malloc_memory sys (allocIter sys nitems0 size_of_item0 N st)
      nitems0 size_of_item0).p = none ∧
    (GB_malloc_memory sys
      (disableFaultInjection (allocIter sys nitems0 size_of_item0 N st))
      nitems0 size_of_item0).p ≠ none := by
  have hinv := allocIter_debug_invariant sys nitems0 size_of_item0 h1 h2 h3 hsys
  refine ⟨?_, ?_, ?_, ?_⟩
  · intro k hk
    obtain ⟨a, ha⟩ := Option.isSome_iff_exists.mp
      (hsys (max 1 nitems0 * max 1 size_of_item0))
    have hst := hinv k N st hd hcnt (Nat.le_of_lt hk)
    have := GB_malloc_memory_success sys
      (allocIter sys nitems0 size_of_item0 k st) nitems0 size_of_item0 a
      h1 h2 h3 (Or.inr (by rw [hst.2.1]; omega)) ha
    rw [this]; simp
  · intro k hk
    exact (hinv k N st hd hcnt hk).2
  · have hst := hinv N N st hd hcnt le_rfl
    have := GB_malloc_memory_debug_fail sys
      (allocIter sys nitems0 size_of_item0 N st) nitems0 size_of_item0
      h1 h2 h3 hst.1 (by rw [hst.2.1]; omega)
    rw [this]
  · obtain ⟨a, ha⟩ := Option.isSome_iff_exists.mp
      (hsys (max 1 nitems0 * max 1 size_of_item0))
    have := GB_malloc_memory_success sys
      (disableFaultInjection (allocIter sys nitems0 size_of_item0 N st))
      nitems0 size_of_item0 a h1 h2 h3 (Or.inl rfl) ha
    rw [this]; simp

/-- A context with fault injection armed and a budget of 2 successes. -/
def budgetDebugState : GB_Global :=
  { GB_init_state 0 with malloc_debug := true, malloc_debug_count := 2 }

/-- Witness for C5: budget 2, unit-size allocations, always-succeeding
system allocator. -/
theorem allocate_fault_budget_behaviour_witness :
    (∀ k, k < 2 →
      (GB_malloc_memory sysOk (allocIter sysOk 1 1 k budgetDebugState) 1 1).p
        ≠ none) ∧
    (∀ k, k ≤ 2 →
      (allocIter sysOk 1 1 k budgetDebugState).malloc_debug_count =
        (2 : Int) - k ∧
      (allocIter sysOk 1 1 k budgetDebugState).nmalloc =
        budgetDebugState.nmalloc + k) ∧
    (GB_malloc_memory sysOk (allocIter sysOk 1 1 2 budgetDebugState) 1 1).p =
      none ∧
    (GB_malloc_memory sysOk
      (disableFaultInjection (allocIter sysOk 1 1 2 budgetDebugState)) 1 1).p
      ≠ none :=
  allocate_fault_budget_behaviour sysOk budgetDebugState 1 1 2
    (by decide) (by decide) (by decide) (fun _ => rfl) rfl rfl (by decide)

/-! ## Branch characterizations of `GrB_init` -/

/-- A valid mode makes `GrB_init` return success and the fully reset
context. -/
theorem GrB_init_valid (st : GB_Global) (mode : Nat)
    (h : mode = GrB_BLOCKING ∨ mode = GrB_NONBLOCKING) :
    GrB_init st mode = (GrB_SUCCESS, GB_init_state mode) := by
  simp only [GrB_init]
  rw [if_neg (not_not_intro h)]

/-- An invalid mode makes `GrB_init` return `GrB_INVALID_VALUE` and only
update the diagnostics of the context. -/
theorem GrB_init_invalid (st : GB_Global) (mode : Nat)
    (h : ¬ (mode = GrB_BLOCKING ∨ mode = GrB_NONBLOCKING)) :
    GrB_init st mode =
      (GrB_INVALID_VALUE,
       GB_error (GB_where st "GrB_init (mode)") GrB_INVALID_VALUE
         "Unknown mode") := by
  simp only [GrB_init]
  rw [if_pos h]

/-- Either allocation branch keeps `nmalloc` in lockstep with the returned
pointer: failure leaves the counter unchanged, success adds exactly 1. -/
theorem GB_malloc_memory_nmalloc_cases (sys : Nat → Option Nat)
    (st : GB_Global) (nitems0 size_of_item0 : Nat) :
    ((GB_malloc_memory sys st nitems0 size_of_item0).p = none ∧
     (GB_malloc_memory sys st nitems0 size_of_item0).st.nmalloc = st.nmalloc) ∨
    ((∃ a, (GB_malloc_memory sys st nitems0 size_of_item0).p = some a) ∧
     (GB_malloc_memory sys st nitems0 size_of_item0).st.nmalloc =
       st.nmalloc + 1) := by
  simp only [GB_malloc_memory]
  split
  · exact Or.inl ⟨rfl, rfl⟩
  · split
    · exact Or.inl ⟨rfl, rfl⟩
    · split
      · exact Or.inl ⟨rfl, rfl⟩
      · refine Or.inr ⟨⟨_, rfl⟩, ?_⟩
        split <;> rfl

/-! ## Claims about `GrB_init` -/

/-- C6: for either valid mode, `GrB_init` succeeds and resets the context:
error status cleared to success, pending queue emptied, allocation counter
zeroed, fault injection disabled, workspace pointers cleared, and the
stored mode set to exactly the argument. -/
theorem init_valid_mode_resets (st : GB_Global) (mode : Nat)
    (h : mode = GrB_BLOCKING ∨ mode = GrB_NONBLOCKING) :
    GrB_init st mode = (GrB_SUCCESS, GB_init_state mode) ∧
    (GrB_init st mode).2.info = GrB_SUCCESS ∧
    (GrB_init st mode).2.queue_head = none ∧
    (GrB_init st mode).2.nmalloc = 0 ∧
    (GrB_init st mode).2.malloc_debug = false ∧
    (GrB_init st mode).2.malloc_debug_count = 0 ∧
    (GrB_init st mode).2.Mark = none ∧
    (GrB_init st mode).2.Work = none ∧
    (GrB_init st mode).2.Flag = none ∧
    (GrB_init st mode).2.mode = mode := by
  have he := GrB_init_valid st mode h
  rw [he]
  exact ⟨rfl, rfl, rfl, rfl, rfl, rfl, rfl, rfl, rfl, rfl⟩

/-- Witness for C6: `GrB_init` in blocking mode on an arbitrary dirty
context. -/
theorem init_valid_mode_resets_witness :
    GrB_init exhaustedDebugState GrB_BLOCKING =
      (GrB_SUCCESS, GB_init_state GrB_BLOCKING) ∧
    (GrB_init exhaustedDebugState GrB_BLOCKING).2.info = GrB_SUCCESS ∧
    (GrB_init exhaustedDebugState GrB_BLOCKING).2.queue_head = none ∧
    (GrB_init exhaustedDebugState GrB_BLOCKING).2.nmalloc = 0 ∧
    (GrB_init exhaustedDebugState GrB_BLOCKING).2.malloc_debug = false ∧
    (GrB_init exhaustedDebugState GrB_BLOCKING).2.malloc_debug_count = 0 ∧
    (GrB_init exhaustedDebugState GrB_BLOCKING).2.Mark = none ∧
    (GrB_init exhaustedDebugState GrB_BLOCKING).2.Work = none ∧
    (GrB_init exhaustedDebugState GrB_BLOCKING).2.Flag = none ∧
    (GrB_init exhaustedDebugState GrB_BLOCKING).2.mode = GrB_BLOCKING :=
  init_valid_mode_resets exhaustedDebugState GrB_BLOCKING (Or.inl rfl)

/-- C7 counterexample: on an initialized context, `GrB_init` with the
invalid mode 5 does fail with `GrB_INVALID_VALUE`, but the diagnostics are
not as they were before the call: the recorded error status changes from
success to invalid-value. -/
theorem init_invalid_mode_updates_diagnostics :
    (GrB_init (GB_init_state 0) 5).1 = GrB_INVALID_VALUE ∧
    (GB_init_state 0).info = GrB_SUCCESS ∧
    (GrB_init (GB_init_state 0) 5).2.info ≠ (GB_init_state 0).info := by
  refine ⟨rfl, rfl, ?_⟩
  intro hcon
  exact GrB_Info.noConfusion hcon

/-- C7 (amended): for every mode outside the two valid values, `GrB_init`
fails with `GrB_INVALID_VALUE` and leaves mode, pending queue, allocation
counter, fault-injection settings and workspace buffers unchanged, while
the diagnostics are updated to record the invalid-value failure. -/
theorem init_invalid_mode_fails (st : GB_Global) (mode : Nat)
    (h : ¬ (mode = GrB_BLOCKING ∨ mode = GrB_NONBLOCKING)) :
    (GrB_init st mode).1 = GrB_INVALID_VALUE ∧
    (GrB_init st mode).2.mode = st.mode ∧
    (GrB_init st mode).2.queue_head = st.queue_head ∧
    (GrB_init st mode).2.nmalloc = st.nmalloc ∧
    (GrB_init st mode).2.malloc_debug = st.malloc_debug ∧
    (GrB_init st mode).2.malloc_debug_count = st.malloc_debug_count ∧
    (GrB_init st mode).2.Mark = st.Mark ∧
    (GrB_init st mode).2.Mark_flag = st.Mark_flag ∧
    (GrB_init st mode).2.Mark_size = st.Mark_size ∧
    (GrB_init st mode).2.Work = st.Work ∧
    (GrB_init st mode).2.Work_size = st.Work_size ∧
    (GrB_init st mode).2.Flag = st.Flag ∧
    (GrB_init st mode).2.Flag_size = st.Flag_size ∧
    (GrB_init st mode).2.info = GrB_INVALID_VALUE := by
  have he := GrB_init_invalid st mode h
  rw [he]
  exact ⟨rfl, rfl, rfl, rfl, rfl, rfl, rfl, rfl, rfl, rfl, rfl, rfl, rfl, rfl⟩

/-- Witness for the amended C7: invalid mode 7 on a fresh context. -/
theorem init_invalid_mode_fails_witness :
    (GrB_init (GB_init_state 0) 7).1 = GrB_INVALID_VALUE ∧
    (GrB_init (GB_init_state 0) 7).2.mode = (GB_init_state 0).mode ∧
    (GrB_init (GB_init_state 0) 7).2.queue_head = (GB_init_state 0).queue_head ∧
    (GrB_init (GB_init_state 0) 7).2.nmalloc = (GB_init_state 0).nmalloc ∧
    (GrB_init (GB_init_state 0) 7).2.malloc_debug =
      (GB_init_state 0).malloc_debug ∧
    (GrB_init (GB_init_state 0) 7).2.malloc_debug_count =
      (GB_init_state 0).malloc_debug_count ∧
    (GrB_init (GB_init_state 0) 7).2.Mark = (GB_init_state 0).Mark ∧
    (GrB_init (GB_init_state 0) 7).2.Mark_flag = (GB_init_state 0).Mark_flag ∧
    (GrB_init (GB_init_state 0) 7).2.Mark_size = (GB_init_state 0).Mark_size ∧
    (GrB_init (GB_init_state 0) 7).2.Work = (GB_init_state 0).Work ∧
    (GrB_init (GB_init_state 0) 7).2.Work_size = (GB_init_state 0).Work_size ∧
    (GrB_init (GB_init_state 0) 7).2.Flag = (GB_init_state 0).Flag ∧
    (GrB_init (GB_init_state 0) 7).2.Flag_size = (GB_init_state 0).Flag_size ∧
    (GrB_init (GB_init_state 0) 7).2.info = GrB_INVALID_VALUE :=
  init_invalid_mode_fails (GB_init_state 0) 7 (by decide)

/-- An initialized context that owns one workspace buffer: the block at
address 7 is held by `Mark` and is the only outstanding allocation. -/
def leakedState : AllocState :=
  ⟨{ GB_init_state 0 with Mark := some 7, Mark_size := 16, nmalloc := 1 }, [7]⟩

/-- C8: re-initialization does not release previously-owned workspace
buffers.  In general `GrB_init` performs no release (the live-block list
is unchanged for every context and mode), and on the concrete context
owning block 7 through `Mark` the call succeeds, clears the `Mark`
pointer, yet block 7 is still unreleased afterwards — the buffer is
leaked. -/
theorem init_does_not_release_workspace :
    (∀ (s : AllocState) (mode : Nat),
      (GrB_init_full s mode).2.live = s.live) ∧
    leakedState.gs.Mark = some 7 ∧
    leakedState.live = [7] ∧
    (GrB_init_full leakedState GrB_BLOCKING).1 = GrB_SUCCESS ∧
    (GrB_init_full leakedState GrB_BLOCKING).2.gs.Mark = none ∧
    (GrB_init_full leakedState GrB_BLOCKING).2.live = [7] :=
  ⟨fun _ _ => rfl, rfl, rfl, rfl, rfl, rfl⟩

/-- C9 counterexample: starting from a fresh context, one successful
allocation keeps `allocationCount` equal to the number of outstanding
allocations, but re-initialization then zeroes the counter without
releasing the outstanding block, breaking the invariant. -/
theorem count_invariant_broken_by_reinit :
    countInvariant freshState ∧
    countInvariant (GB_malloc_full sysOk freshState 1 1).2 ∧
    ¬ countInvariant
        (GrB_init_full (GB_malloc_full sysOk freshState 1 1).2
          GrB_BLOCKING).2 := by
  refine ⟨by decide, by decide, by decide⟩

/-- C9 (amended): the `allocationCount` invariant is preserved by
`GB_malloc_full` in every success and failure branch, and `GrB_init` with
a valid mode re-establishes it exactly when no allocations are
outstanding. -/
theorem count_invariant_preserved (sys : Nat → Option Nat)
    (s t : AllocState) (nitems0 size_of_item0 m : Nat)
    (hs : countInvariant s)
    (hm : m = GrB_BLOCKING ∨ m = GrB_NONBLOCKING)
    (ht : t.live = []) :
    countInvariant (GB_malloc_full sys s nitems0 size_of_item0).2 ∧
    countInvariant (GrB_init_full t m).2 := by
  constructor
  · rcases GB_malloc_memory_nmalloc_cases sys s.gs nitems0 size_of_item0 with
      ⟨hp, hn⟩ | ⟨⟨a, hp⟩, hn⟩
    · simp only [GB_malloc_full, hp]
      unfold countInvariant
      simpa [hn] using hs
    · simp only [GB_malloc_full, hp]
      unfold countInvariant
      simp only [List.length_cons]
      rw [hn]
      unfold countInvariant at hs
      rw [hs]
      push_cast
      ring
  · unfold GrB_init_full
    rw [GrB_init_valid t.gs m hm]
    unfold countInvariant
    rw [ht]
    rfl

/-- Witness for the amended C9: a unit allocation on a fresh context and a
re-initialization of a context with no outstanding allocations. -/
theorem count_invariant_preserved_witness :
    countInvariant (GB_malloc_full sysOk freshState 1 1).2 ∧
    countInvariant (GrB_init_full freshState GrB_NONBLOCKING).2 :=
  count_invariant_preserved sysOk freshState freshState 1 1 GrB_NONBLOCKING
    (by decide) (Or.inr rfl) rfl

/-- C10: `GrB_init` is idempotent for either valid mode: a second call
returns the context to exactly the same state, and both calls report
success. -/
theorem init_idempotent (st : GB_Global) (m : Nat)
    (h : m = GrB_BLOCKING ∨ m = GrB_NONBLOCKING) :
    GrB_init (GrB_init st m).2 m = GrB_init st m ∧
    (GrB_init st m).1 = GrB_SUCCESS ∧
    (GrB_init (GrB_init st m).2 m).1 = GrB_SUCCESS := by
  have h1 := GrB_init_valid st m h
  have h2 := GrB_init_valid (GB_init_state m) m h
  refine ⟨?_, ?_, ?_⟩
  · rw [h1]
    exact h2
  · rw [h1]
  · rw [h1]
    exact congrArg Prod.fst h2

/-- Witness for C10: double initialization in non-blocking mode from a
dirty context. -/
theorem init_idempotent_witness :
    GrB_init (GrB_init exhaustedDebugState GrB_NONBLOCKING).2 GrB_NONBLOCKING =
      GrB_init exhaustedDebugState GrB_NONBLOCKING ∧
    (GrB_init exhaustedDebugState GrB_NONBLOCKING).1 = GrB_SUCCESS ∧
    (GrB_init (GrB_init exhaustedDebugState GrB_NONBLOCKING).2
      GrB_NONBLOCKING).1 = GrB_SUCCESS :=
  init_idempotent exhaustedDebugState GrB_NONBLOCKING (Or.inr rfl)

end SuiteSparse
